import Mathlib

set_option maxRecDepth 100000

/-!
Verification of the SPI framing and validation protocol of the
Nuertey-LDESeries-Mbed driver (`Protocol.h`, `NuerteyLDESeriesDevice.h`).

The shallow embedding below translates the C++ sources into Lean:
bytes and machine words are `Nat` with explicit `% 2 ^ w` where the C++
performs a narrowing assignment, frames are 4-tuples of bytes, the
`std::error_code` outcomes of the validation routines become an inductive
`SensorStatus`, and the one piece of mutable state consulted by the
validator (the function-local `static bool startupIndication`) is threaded
explicitly through the model.
-/

/-- `SPICommandFrame_t` from Protocol.h: a `std::array<unsigned char, 4>`,
most-significant byte first. Each field is one byte (0..255). -/
structure SPICommandFrame where
  b0 : Nat
  b1 : Nat
  b2 : Nat
  b3 : Nat
  deriving DecidableEq, Repr

/-- `CalculateCRC(uint8_t BitValue, uint8_t eightCRC)` from Protocol.h:
one step of the bit-serial CRC-8 with polynomial `0x1D`. The C++ assigns
`eightCRC <<= 1` back into a `uint8_t`, so the shift is reduced mod `2 ^ 8`. -/
def CalculateCRCStep (BitValue : Nat) (eightCRC : Nat) : Nat :=
  let Temp := eightCRC &&& 0x80
  let Temp := if BitValue = 0x01 then Temp ^^^ 0x80 else Temp
  let eightCRC := (eightCRC <<< 1) % 256
  if Temp > 0 then eightCRC ^^^ 0x1D else eightCRC

/-- `CalculateCRC(uint32_t frame)` from Protocol.h: runs the bit-serial CRC
over bits 31 down to 8 of the flattened frame (the 8 LSBs are the CRC field
and are excluded), seeded with `0xFF`, and complements the result at the end
(`~` on a `uint8_t` value is `xor 0xFF`). -/
def CalculateCRCWord (frame : Nat) : Nat :=
  let eightCRC := (List.range 24).foldl
    (fun crc i => CalculateCRCStep ((frame >>> (31 - i)) &&& 0x01) crc) 0xFF
  eightCRC ^^^ 0xFF

/-- `CalculateCRC(const SPICommandFrame_t&)` from Protocol.h: flattens the
four bytes MSB-first into a 32-bit word (`(b0 << 24) + (b1 << 16) + (b2 << 8)
+ b3`) and runs the bit-serial CRC over its upper 24 bits. -/
def CalculateCRC (f : SPICommandFrame) : Nat :=
  CalculateCRCWord (f.b0 * 2 ^ 24 + f.b1 * 2 ^ 16 + f.b2 * 2 ^ 8 + f.b3)

/-! The closed command-frame catalog of Protocol.h ("Table 14 Operations And
Their Equivalent SPI Frames"): each constant carries its precomputed CRC as
the fourth byte. -/

def READ_ACCELERATION_X_AXIS : SPICommandFrame := ⟨0x04, 0x00, 0x00, 0xF7⟩

def READ_ACCELERATION_Y_AXIS : SPICommandFrame := ⟨0x08, 0x00, 0x00, 0xFD⟩

def READ_ACCELERATION_Z_AXIS : SPICommandFrame := ⟨0x0C, 0x00, 0x00, 0xFB⟩

def READ_SELF_TEST_OUTPUT : SPICommandFrame := ⟨0x10, 0x00, 0x00, 0xE9⟩

def ENABLE_ANGLE_OUTPUTS : SPICommandFrame := ⟨0xB0, 0x00, 0x1F, 0x6F⟩

def READ_ANGLE_X_AXIS : SPICommandFrame := ⟨0x24, 0x00, 0x00, 0xC7⟩

def READ_ANGLE_Y_AXIS : SPICommandFrame := ⟨0x28, 0x00, 0x00, 0xCD⟩

def READ_ANGLE_Z_AXIS : SPICommandFrame := ⟨0x2C, 0x00, 0x00, 0xCB⟩

def READ_TEMPERATURE : SPICommandFrame := ⟨0x14, 0x00, 0x00, 0xEF⟩

def READ_STATUS_SUMMARY : SPICommandFrame := ⟨0x18, 0x00, 0x00, 0xE5⟩

def READ_ERROR_FLAG_1 : SPICommandFrame := ⟨0x1C, 0x00, 0x00, 0xE3⟩

def READ_ERROR_FLAG_2 : SPICommandFrame := ⟨0x20, 0x00, 0x00, 0xC1⟩

def READ_COMMAND : SPICommandFrame := ⟨0x34, 0x00, 0x00, 0xDF⟩

def CHANGE_TO_MODE_1 : SPICommandFrame := ⟨0xB4, 0x00, 0x00, 0x1F⟩

def CHANGE_TO_MODE_2 : SPICommandFrame := ⟨0xB4, 0x00, 0x01, 0x02⟩

def CHANGE_TO_MODE_3 : SPICommandFrame := ⟨0xB4, 0x00, 0x02, 0x25⟩

def CHANGE_TO_MODE_4 : SPICommandFrame := ⟨0xB4, 0x00, 0x03, 0x38⟩

def SET_POWERDOWN_MODE : SPICommandFrame := ⟨0xB4, 0x00, 0x04, 0x6B⟩

def WAKEUP_FROM_POWERDOWN_MODE : SPICommandFrame := ⟨0xB4, 0x00, 0x00, 0x1F⟩

def SOFTWARE_RESET : SPICommandFrame := ⟨0xB4, 0x00, 0x20, 0x98⟩

def READ_WHO_AM_I : SPICommandFrame := ⟨0x40, 0x00, 0x00, 0x91⟩

def READ_SERIAL_1 : SPICommandFrame := ⟨0x64, 0x00, 0x00, 0xA7⟩

def READ_SERIAL_2 : SPICommandFrame := ⟨0x68, 0x00, 0x00, 0xAD⟩

def READ_CURRENT_BANK : SPICommandFrame := ⟨0x7C, 0x00, 0x00, 0xB3⟩

def SWITCH_TO_BANK_0 : SPICommandFrame := ⟨0xFC, 0x00, 0x00, 0x73⟩

def SWITCH_TO_BANK_1 : SPICommandFrame := ⟨0xFC, 0x00, 0x01, 0x6E⟩

/-- The 26 command frames of the catalog, in source order (the closed set
checked by `AssertValidSPICommandFrame`). -/
def spiCommandFrameCatalog : List SPICommandFrame :=
  [READ_ACCELERATION_X_AXIS, READ_ACCELERATION_Y_AXIS, READ_ACCELERATION_Z_AXIS,
   READ_SELF_TEST_OUTPUT, ENABLE_ANGLE_OUTPUTS, READ_ANGLE_X_AXIS,
   READ_ANGLE_Y_AXIS, READ_ANGLE_Z_AXIS, READ_TEMPERATURE, READ_STATUS_SUMMARY,
   READ_ERROR_FLAG_1, READ_ERROR_FLAG_2, READ_COMMAND, CHANGE_TO_MODE_1,
   CHANGE_TO_MODE_2, CHANGE_TO_MODE_3, CHANGE_TO_MODE_4, SET_POWERDOWN_MODE,
   WAKEUP_FROM_POWERDOWN_MODE, SOFTWARE_RESET, READ_WHO_AM_I, READ_SERIAL_1,
   READ_SERIAL_2, READ_CURRENT_BANK, SWITCH_TO_BANK_0, SWITCH_TO_BANK_1]

/-- `SPIMISOFrame_t<T>` from Protocol.h: the tuple produced by `Deserialize`.
The 16-bit payload is kept raw here; `toInt16` below performs the signed
reinterpretation done by the C++ narrowing conversion when `T = int16_t`. -/
structure SPIMISOFrame where
  operationCodeReadWrite : Nat
  operationCodeAddress : Nat
  returnStatusMISO : Nat
  sensorData : Nat
  checksum : Nat
  deriving DecidableEq, Repr

/-- `Deserialize<T>` from Protocol.h: splits the leading byte into the 1-bit
read/write flag (`b0 >> 7`), the 5-bit address (`(b0 >> 2) & 0x1F`) and the
2-bit return status (`b0 & 0x03`), rebuilds the payload MSB-first
(`(b1 << 8) | b2`), and passes the checksum byte through. Total on every
4-byte frame: no failure path exists. -/
def Deserialize (frame : SPICommandFrame) : SPIMISOFrame :=
  { operationCodeReadWrite := frame.b0 >>> 7
    operationCodeAddress := (frame.b0 >>> 2) &&& 0x1F
    returnStatusMISO := frame.b0 &&& 0x03
    sensorData := (frame.b1 <<< 8) ||| frame.b2
    checksum := frame.b3 }

/-- The narrowing conversion of the deserialized payload to `T = int16_t`:
two's-complement reinterpretation of the low 16 bits. -/
def toInt16 (raw : Nat) : Int :=
  if raw % 2 ^ 16 < 2 ^ 15 then ((raw % 2 ^ 16 : Nat) : Int)
  else ((raw % 2 ^ 16 : Nat) : Int) - 2 ^ 16

/-- `SensorStatus_t` from NuerteyLDESeriesDevice.h (the enumerators the
validation routines can produce; `SUCCESS` models the default-constructed
`std::error_code`). -/
inductive SensorStatus where
  | SUCCESS
  | ERROR_INVALID_COMMAND_FRAME
  | ERROR_INCORRECT_NUMBER_OF_BYTES_WRITTEN
  | ERROR_COMMUNICATION_FAILURE_BAD_CHECKSUM
  | ERROR_INVALID_RESPONSE_FRAME
  | ERROR_OPCODE_READ_WRITE_MISMATCH
  | ERROR_RETURN_STATUS_STARTUP_IN_PROGRESS
  deriving DecidableEq, Repr

/-- Modelled from the spec: `ReturnStatus_t` is declared in Utilities.h,
which is absent from src/. The validator compares the 2-bit MISO return
status against `ReturnStatus_t::ERROR`, the device's "error" bit pattern
`0b11`, and against `ReturnStatus_t::NORMAL_OPERATION_NO_FLAGS`, the
"normal operation, no flags" pattern `0b01` of the return-status taxonomy. -/
def ReturnStatus_ERROR : Nat := 0b11

/-- Modelled from the spec: see `ReturnStatus_ERROR`. -/
def ReturnStatus_NORMAL_OPERATION_NO_FLAGS : Nat := 0b01

/-- `ValidateCRC` from NuerteyLDESeriesDevice.h: compares the received
fourth byte against the CRC recomputed over the frame; a mismatch yields
the bad-checksum communication failure, otherwise the default (success)
`std::error_code` is returned unchanged. -/
def ValidateCRC (frame : SPICommandFrame) : SensorStatus :=
  if frame.b3 ≠ CalculateCRC frame then
    SensorStatus.ERROR_COMMUNICATION_FAILURE_BAD_CHECKSUM
  else SensorStatus.SUCCESS

/-- The observable effect of one `ValidateSPIResponseFrame` call: the
returned `std::error_code`, the caller's `sensorData` slot after the call,
and the function-local `static bool startupIndication` after the call. -/
structure ValidateOutcome where
  result : SensorStatus
  sensorData : Nat
  startupIndication : Bool
  deriving DecidableEq, Repr

/-- `ValidateSPIResponseFrame<T>` from NuerteyLDESeriesDevice.h, with the
function-local `static bool startupIndication` and the by-reference
`sensorData` slot threaded explicitly. On CRC failure the CRC error is
returned at once; otherwise both frames are deserialized, the "error"
return status is dispatched on whether the command was READ_STATUS_SUMMARY,
and a non-error status proceeds to the address and read/write echo checks,
committing the payload only when both match. The startup flag is cleared
(only inside the non-error branch, before the echo checks) when a
READ_STATUS_SUMMARY command sees the normal-operation status. -/
def ValidateSPIResponseFrame (startupIndication : Bool) (sensorData : Nat)
    (commandFrame responseFrame : SPICommandFrame) : ValidateOutcome :=
  let result := ValidateCRC responseFrame
  if result = SensorStatus.SUCCESS then
    let cmd := Deserialize commandFrame
    let resp := Deserialize responseFrame
    if resp.returnStatusMISO ≠ ReturnStatus_ERROR then
      let startupIndication' :=
        if commandFrame = READ_STATUS_SUMMARY ∧
            resp.returnStatusMISO = ReturnStatus_NORMAL_OPERATION_NO_FLAGS then
          false
        else startupIndication
      if resp.operationCodeAddress = cmd.operationCodeAddress then
        if resp.operationCodeReadWrite = cmd.operationCodeReadWrite then
          ⟨SensorStatus.SUCCESS, resp.sensorData, startupIndication'⟩
        else
          ⟨SensorStatus.ERROR_OPCODE_READ_WRITE_MISMATCH, sensorData, startupIndication'⟩
      else
        ⟨SensorStatus.ERROR_INVALID_RESPONSE_FRAME, sensorData, startupIndication'⟩
    else
      if commandFrame = READ_STATUS_SUMMARY then
        ⟨SensorStatus.ERROR_RETURN_STATUS_STARTUP_IN_PROGRESS, sensorData, startupIndication⟩
      else
        ⟨SensorStatus.ERROR_INVALID_COMMAND_FRAME, sensorData, startupIndication⟩
  else
    ⟨result, sensorData, startupIndication⟩

/-- Claim C1: for every one of the 26 command frames in the catalog
(READ_ACCELERATION_X_AXIS through SWITCH_TO_BANK_1), the CRC-8 computed by
CalculateCRC over the frame's first three bytes (bits 31..8, MSB-first, seed
0xFF, polynomial 0x1D, final complement) equals the frame's fourth byte. -/
theorem catalog_crc_self_consistent :
    ∀ f ∈ spiCommandFrameCatalog, CalculateCRC f = f.b3 := by decide

/-- Claim C2: for every command frame and every 4-byte response frame whose
fourth byte differs from the CRC-8 of its first three bytes,
ValidateSPIResponseFrame returns ERROR_COMMUNICATION_FAILURE_BAD_CHECKSUM and
leaves the caller's sensorData slot (and the startup flag) unchanged; no
status, address, or read/write check is applied to such a response. -/
theorem validate_checksum_failure_discards
    (commandFrame responseFrame : SPICommandFrame)
    (sensorData : Nat) (startupIndication : Bool)
    (h : responseFrame.b3 ≠ CalculateCRC responseFrame) :
    (ValidateSPIResponseFrame startupIndication sensorData commandFrame responseFrame).result
        = SensorStatus.ERROR_COMMUNICATION_FAILURE_BAD_CHECKSUM ∧
    (ValidateSPIResponseFrame startupIndication sensorData commandFrame responseFrame).sensorData
        = sensorData ∧
    (ValidateSPIResponseFrame startupIndication sensorData commandFrame responseFrame).startupIndication
        = startupIndication := by
  unfold ValidateSPIResponseFrame ValidateCRC
  simp [h]

/-- Witness for C2: READ_STATUS_SUMMARY with its checksum byte corrupted from
0xE5 to 0xE4 is rejected with the bad-checksum error. -/
theorem validate_checksum_failure_discards_witness :
    (SPICommandFrame.mk 0x18 0x00 0x00 0xE4).b3
        ≠ CalculateCRC (SPICommandFrame.mk 0x18 0x00 0x00 0xE4) ∧
    (ValidateSPIResponseFrame true 7 READ_STATUS_SUMMARY
        (SPICommandFrame.mk 0x18 0x00 0x00 0xE4)).result
        = SensorStatus.ERROR_COMMUNICATION_FAILURE_BAD_CHECKSUM :=
  ⟨by decide,
   (validate_checksum_failure_discards READ_STATUS_SUMMARY
      (SPICommandFrame.mk 0x18 0x00 0x00 0xE4) 7 true (by decide)).1⟩

/-- Claim C3: for every CRC-valid response whose 2-bit return status equals the
device's "error" code 0b11: if the command frame is READ_STATUS_SUMMARY,
ValidateSPIResponseFrame returns ERROR_RETURN_STATUS_STARTUP_IN_PROGRESS; for
every other command frame it returns ERROR_INVALID_COMMAND_FRAME; in both
cases sensorData is not written. -/
theorem validate_error_return_status
    (commandFrame responseFrame : SPICommandFrame)
    (sensorData : Nat) (startupIndication : Bool)
    (hcrc : responseFrame.b3 = CalculateCRC responseFrame)
    (hrs : (Deserialize responseFrame).returnStatusMISO = 0b11) :
    (ValidateSPIResponseFrame startupIndication sensorData commandFrame responseFrame).result
        = (if commandFrame = READ_STATUS_SUMMARY then
             SensorStatus.ERROR_RETURN_STATUS_STARTUP_IN_PROGRESS
           else SensorStatus.ERROR_INVALID_COMMAND_FRAME) ∧
    (ValidateSPIResponseFrame startupIndication sensorData commandFrame responseFrame).sensorData
        = sensorData ∧
    (ValidateSPIResponseFrame startupIndication sensorData commandFrame responseFrame).startupIndication
        = startupIndication := by
  unfold ValidateSPIResponseFrame ValidateCRC
  simp only [hcrc, ne_eq, not_true_eq_false, if_false, if_true]
  simp [hrs, ReturnStatus_ERROR]
  split <;> simp

/-- Witness for C3: a CRC-valid response carrying return status 0b11 to the
READ_STATUS_SUMMARY command yields the startup-in-progress error. -/
theorem validate_error_return_status_witness :
    (SPICommandFrame.mk 0x1B 0x00 0x00 0x69).b3
        = CalculateCRC (SPICommandFrame.mk 0x1B 0x00 0x00 0x69) ∧
    (Deserialize (SPICommandFrame.mk 0x1B 0x00 0x00 0x69)).returnStatusMISO = 0b11 ∧
    (ValidateSPIResponseFrame true 7 READ_STATUS_SUMMARY
        (SPICommandFrame.mk 0x1B 0x00 0x00 0x69)).result
        = SensorStatus.ERROR_RETURN_STATUS_STARTUP_IN_PROGRESS :=
  ⟨by decide, by decide, by
    have h := (validate_error_return_status READ_STATUS_SUMMARY
      (SPICommandFrame.mk 0x1B 0x00 0x00 0x69) 7 true (by decide) (by decide)).1
    simpa using h⟩

/-- Claim C4: for every CRC-valid response whose return status is not the
error code: if the response's 5-bit address field differs from the command's,
ValidateSPIResponseFrame returns ERROR_INVALID_RESPONSE_FRAME; if the
addresses match but the read/write bits differ, it returns
ERROR_OPCODE_READ_WRITE_MISMATCH; sensorData is assigned the response's
16-bit payload exactly when both the address and the read/write bit match. -/
theorem validate_opcode_echo_matching
    (commandFrame responseFrame : SPICommandFrame)
    (sensorData : Nat) (startupIndication : Bool)
    (hcrc : responseFrame.b3 = CalculateCRC responseFrame)
    (hrs : (Deserialize responseFrame).returnStatusMISO ≠ 0b11) :
    ((Deserialize responseFrame).operationCodeAddress
        ≠ (Deserialize commandFrame).operationCodeAddress →
      (ValidateSPIResponseFrame startupIndication sensorData commandFrame responseFrame).result
          = SensorStatus.ERROR_INVALID_RESPONSE_FRAME ∧
      (ValidateSPIResponseFrame startupIndication sensorData commandFrame responseFrame).sensorData
          = sensorData) ∧
    ((Deserialize responseFrame).operationCodeAddress
        = (Deserialize commandFrame).operationCodeAddress →
      (Deserialize responseFrame).operationCodeReadWrite
        ≠ (Deserialize commandFrame).operationCodeReadWrite →
      (ValidateSPIResponseFrame startupIndication sensorData commandFrame responseFrame).result
          = SensorStatus.ERROR_OPCODE_READ_WRITE_MISMATCH ∧
      (ValidateSPIResponseFrame startupIndication sensorData commandFrame responseFrame).sensorData
          = sensorData) ∧
    ((Deserialize responseFrame).operationCodeAddress
        = (Deserialize commandFrame).operationCodeAddress →
      (Deserialize responseFrame).operationCodeReadWrite
        = (Deserialize commandFrame).operationCodeReadWrite →
      (ValidateSPIResponseFrame startupIndication sensorData commandFrame responseFrame).result
          = SensorStatus.SUCCESS ∧
      (ValidateSPIResponseFrame startupIndication sensorData commandFrame responseFrame).sensorData
          = (Deserialize responseFrame).sensorData) := by
  unfold ValidateSPIResponseFrame ValidateCRC
  simp only [hcrc, ne_eq, not_true_eq_false, if_false, if_true]
  refine ⟨fun haddr => ?_, fun haddr hrw => ?_, fun haddr hrw => ?_⟩ <;>
    simp [hrs, ReturnStatus_ERROR, haddr] <;> simp [hrw]

/-- Witness for C4: a CRC-valid matched echo of READ_STATUS_SUMMARY (status
0b01) succeeds and commits the payload 0x0203. -/
theorem validate_opcode_echo_matching_witness :
    (SPICommandFrame.mk 0x19 0x02 0x03 0xD5).b3
        = CalculateCRC (SPICommandFrame.mk 0x19 0x02 0x03 0xD5) ∧
    (Deserialize (SPICommandFrame.mk 0x19 0x02 0x03 0xD5)).returnStatusMISO ≠ 0b11 ∧
    (ValidateSPIResponseFrame true 7 READ_STATUS_SUMMARY
        (SPICommandFrame.mk 0x19 0x02 0x03 0xD5)).result = SensorStatus.SUCCESS ∧
    (ValidateSPIResponseFrame true 7 READ_STATUS_SUMMARY
        (SPICommandFrame.mk 0x19 0x02 0x03 0xD5)).sensorData = 0x0203 :=
  ⟨by decide, by decide, by
    have h := (validate_opcode_echo_matching READ_STATUS_SUMMARY
      (SPICommandFrame.mk 0x19 0x02 0x03 0xD5) 7 true (by decide) (by decide)).2.2
      (by decide) (by decide)
    exact h.1, by
    have h := (validate_opcode_echo_matching READ_STATUS_SUMMARY
      (SPICommandFrame.mk 0x19 0x02 0x03 0xD5) 7 true (by decide) (by decide)).2.2
      (by decide) (by decide)
    simpa using h.2⟩

/-- Bridge lemma: joining a left-shifted value with a low part below `2 ^ n`
by bitwise or is plain addition. -/
theorem shiftLeft_lor_eq_add {a b n : Nat} (h : b < 2 ^ n) :
    (a <<< n) ||| b = a * 2 ^ n + b := by
  apply Nat.eq_of_testBit_eq
  intro i
  rw [Nat.testBit_lor, Nat.testBit_shiftLeft]
  by_cases hin : n ≤ i
  · have hb : b.testBit i = false :=
      Nat.testBit_lt_two_pow (lt_of_lt_of_le h (Nat.pow_le_pow_right (by norm_num) hin))
    simp only [hin, decide_True, Bool.true_and, hb, Bool.or_false]
    rw [Nat.testBit_to_div_mod, Nat.testBit_to_div_mod]
    have hdiv : (a * 2 ^ n + b) / 2 ^ i = a / 2 ^ (i - n) := by
      have hpow : (2 : Nat) ^ i = 2 ^ n * 2 ^ (i - n) := by
        rw [← pow_add]; congr 1; omega
      rw [hpow, ← Nat.div_div_eq_div_mul]
      have h2 : (a * 2 ^ n + b) / 2 ^ n = a := by
        rw [Nat.mul_comm a, Nat.mul_add_div (Nat.two_pow_pos n), Nat.div_eq_of_lt h,
          Nat.add_zero]
      rw [h2]
    rw [hdiv]
  · have hd : decide (n ≤ i) = false := by simp [hin]
    rw [hd, Bool.false_and, Bool.false_or]
    rw [Nat.testBit_to_div_mod, Nat.testBit_to_div_mod]
    have hsplit : a * 2 ^ n + b = 2 ^ i * (2 * (a * 2 ^ (n - i - 1))) + b := by
      have hpow : (2 : Nat) ^ n = 2 ^ i * 2 * 2 ^ (n - i - 1) := by
        rw [← pow_succ, ← pow_add]; congr 1; omega
      rw [hpow]; ring
    rw [hsplit, Nat.mul_add_div (Nat.two_pow_pos i), Nat.mul_add_mod]

/-- The two's-complement reinterpretation is congruent to the raw payload
mod `2 ^ 16` and lands in the int16_t range. -/
theorem toInt16_spec (raw : Nat) :
    toInt16 raw % 2 ^ 16 = ((raw % 2 ^ 16 : Nat) : Int) ∧
    -(2 ^ 15) ≤ toInt16 raw ∧ toInt16 raw < 2 ^ 15 := by
  have hlt : raw % 2 ^ 16 < 2 ^ 16 := Nat.mod_lt raw (by norm_num)
  have hlt2 : ((raw % 2 ^ 16 : Nat) : Int) < 2 ^ 16 := by exact_mod_cast hlt
  have hnn : (0 : Int) ≤ ((raw % 2 ^ 16 : Nat) : Int) := Int.ofNat_nonneg _
  unfold toInt16
  refine ⟨?_, ?_, ?_⟩
  · split
    · exact Int.emod_eq_of_lt hnn hlt2
    · rw [Int.sub_emod]
      simp only [Int.emod_self, Int.sub_zero, Int.emod_emod]
      exact Int.emod_eq_of_lt hnn hlt2
  · split <;> omega
  · split <;> omega

/-- Claim C8: Deserialize is total over all 4-byte frames and is a bit-field
bijection on the leading byte: for every 4-byte frame it returns the
read/write bit = byte0 bit 7, the address = byte0 bits 6..2, the return
status = byte0 bits 1..0, the payload = byte1*256 + byte2 (MSB-first, with
`toInt16` giving the signed-16-bit reinterpretation: congruent mod 2^16 and
within [-2^15, 2^15)), the checksum = byte3, and re-packing these fields
(RW*128 + ADDR*4 + RS) reproduces byte0 exactly. -/
theorem deserialize_bitfield_roundtrip (f : SPICommandFrame)
    (h0 : f.b0 < 256) (h1 : f.b1 < 256) (h2 : f.b2 < 256) :
    (Deserialize f).operationCodeReadWrite = f.b0 / 2 ^ 7 ∧
    (Deserialize f).operationCodeAddress = f.b0 / 2 ^ 2 % 2 ^ 5 ∧
    (Deserialize f).returnStatusMISO = f.b0 % 2 ^ 2 ∧
    (Deserialize f).sensorData = f.b1 * 256 + f.b2 ∧
    (Deserialize f).checksum = f.b3 ∧
    (Deserialize f).operationCodeReadWrite * 128
      + (Deserialize f).operationCodeAddress * 4
      + (Deserialize f).returnStatusMISO = f.b0 ∧
    toInt16 ((Deserialize f).sensorData) % 2 ^ 16
        = ((f.b1 * 256 + f.b2 : Nat) : Int) ∧
    -(2 ^ 15) ≤ toInt16 ((Deserialize f).sensorData) ∧
    toInt16 ((Deserialize f).sensorData) < 2 ^ 15 := by
  have h31 : (31 : Nat) = 2 ^ 5 - 1 := by norm_num
  have h3 : (3 : Nat) = 2 ^ 2 - 1 := by norm_num
  have hrw : (Deserialize f).operationCodeReadWrite = f.b0 / 2 ^ 7 := by
    simp [Deserialize, Nat.shiftRight_eq_div_pow]
  have haddr : (Deserialize f).operationCodeAddress = f.b0 / 2 ^ 2 % 2 ^ 5 := by
    show (f.b0 >>> 2) &&& 31 = f.b0 / 2 ^ 2 % 2 ^ 5
    rw [h31, Nat.and_pow_two_sub_one_eq_mod, Nat.shiftRight_eq_div_pow]
  have hrs : (Deserialize f).returnStatusMISO = f.b0 % 2 ^ 2 := by
    show f.b0 &&& 3 = f.b0 % 2 ^ 2
    rw [h3, Nat.and_pow_two_sub_one_eq_mod]
  have hdata : (Deserialize f).sensorData = f.b1 * 256 + f.b2 := by
    show (f.b1 <<< 8) ||| f.b2 = f.b1 * 256 + f.b2
    have : f.b2 < 2 ^ 8 := by omega
    rw [shiftLeft_lor_eq_add this]
    norm_num
  have hlt : f.b1 * 256 + f.b2 < 65536 := by omega
  have hm : (f.b1 * 256 + f.b2) % 2 ^ 16 = f.b1 * 256 + f.b2 := Nat.mod_eq_of_lt hlt
  have hspec := toInt16_spec ((Deserialize f).sensorData)
  refine ⟨hrw, haddr, hrs, hdata, rfl, ?_, ?_, hspec.2.1, hspec.2.2⟩
  · rw [hrw, haddr, hrs]; omega
  · rw [hspec.1, hdata, hm]

/-- Witness for C8: the frame 0x99 0x02 0x03 0x15 deserializes to RW = 1,
ADDR = 6, RS = 1, payload 0x0203, and the fields repack to 0x99. -/
theorem deserialize_bitfield_roundtrip_witness :
    (SPICommandFrame.mk 0x99 0x02 0x03 0x15).b0 < 256 ∧
    (SPICommandFrame.mk 0x99 0x02 0x03 0x15).b1 < 256 ∧
    (SPICommandFrame.mk 0x99 0x02 0x03 0x15).b2 < 256 ∧
    (Deserialize (SPICommandFrame.mk 0x99 0x02 0x03 0x15)).operationCodeReadWrite * 128
      + (Deserialize (SPICommandFrame.mk 0x99 0x02 0x03 0x15)).operationCodeAddress * 4
      + (Deserialize (SPICommandFrame.mk 0x99 0x02 0x03 0x15)).returnStatusMISO
      = (SPICommandFrame.mk 0x99 0x02 0x03 0x15).b0 :=
  ⟨by decide, by decide, by decide,
   (deserialize_bitfield_roundtrip (SPICommandFrame.mk 0x99 0x02 0x03 0x15)
     (by decide) (by decide) (by decide)).2.2.2.2.2.1⟩

/-- `ErrorFlag1Reason_t` from NuerteyLDESeriesDevice.h: one enumerator per
bit of the 16-bit ERR_FLAG1 register (plus the no-error value 0). -/
inductive ErrorFlag1Reason where
  | SUCCESS_NO_ERROR
  | MEM
  | AFE_SAT_BIT_1
  | AFE_SAT_BIT_2
  | AFE_SAT_BIT_3
  | AFE_SAT_BIT_4
  | AFE_SAT_BIT_5
  | AFE_SAT_BIT_6
  | AFE_SAT_BIT_7
  | AFE_SAT_BIT_8
  | AFE_SAT_BIT_9
  | AFE_SAT_BIT_10
  | ADC_SAT
  | RESERVED_1
  | RESERVED_2
  | RESERVED_3
  | RESERVED_4
  deriving DecidableEq, Repr

/-- The underlying `uint16_t` enumerator values of `ErrorFlag1Reason_t`. -/
def ErrorFlag1Reason.value : ErrorFlag1Reason → Nat
  | .SUCCESS_NO_ERROR => 0
  | .MEM => 1
  | .AFE_SAT_BIT_1 => 2
  | .AFE_SAT_BIT_2 => 4
  | .AFE_SAT_BIT_3 => 8
  | .AFE_SAT_BIT_4 => 16
  | .AFE_SAT_BIT_5 => 32
  | .AFE_SAT_BIT_6 => 64
  | .AFE_SAT_BIT_7 => 128
  | .AFE_SAT_BIT_8 => 256
  | .AFE_SAT_BIT_9 => 512
  | .AFE_SAT_BIT_10 => 1024
  | .ADC_SAT => 2048
  | .RESERVED_1 => 4096
  | .RESERVED_2 => 8192
  | .RESERVED_3 => 16384
  | .RESERVED_4 => 32768

/-- The reason named by bit `b` of the ERR_FLAG1 register (the enumerator
whose underlying value is `2 ^ b`); bits 15 and above fold into the last
enumerator so the map is total. -/
def errorFlag1BitReason : Nat → ErrorFlag1Reason
  | 0 => .MEM
  | 1 => .AFE_SAT_BIT_1
  | 2 => .AFE_SAT_BIT_2
  | 3 => .AFE_SAT_BIT_3
  | 4 => .AFE_SAT_BIT_4
  | 5 => .AFE_SAT_BIT_5
  | 6 => .AFE_SAT_BIT_6
  | 7 => .AFE_SAT_BIT_7
  | 8 => .AFE_SAT_BIT_8
  | 9 => .AFE_SAT_BIT_9
  | 10 => .AFE_SAT_BIT_10
  | 11 => .ADC_SAT
  | 12 => .RESERVED_1
  | 13 => .RESERVED_2
  | 14 => .RESERVED_3
  | _ => .RESERVED_4

/-- Modelled from the spec: the body of the error-flag decoder
(`ConvertErrorFlag1ToReason` is only declared in src/, its definition is not
present). Per the spec's decoding contract it returns every set bit's
reason, in ascending bit order, never truncating to the first match. -/
def decode_error_flags (flags : Nat) : List ErrorFlag1Reason :=
  (List.range 16).filterMap fun b =>
    if flags.testBit b then some (errorFlag1BitReason b) else none

/-- Reason values strictly increase along bit indices below 16. -/
theorem errorFlag1BitReason_strictMono :
    ∀ a < 16, ∀ b < 16, a < b →
      (errorFlag1BitReason a).value < (errorFlag1BitReason b).value := by decide

/-- The decoder is the bit filter of the range, mapped through the
per-bit reason table. -/
theorem decode_error_flags_eq_filter (flags : Nat) :
    decode_error_flags flags
      = ((List.range 16).filter (flags.testBit ·)).map errorFlag1BitReason := by
  unfold decode_error_flags
  induction List.range 16 with
  | nil => rfl
  | cons x xs ih =>
    rw [List.filterMap_cons, List.filter_cons]
    cases h : flags.testBit x <;> simp [h, ih]

/-- Claim C5: for every 16-bit error-flag register value, the error-flag
decoder returns the reasons of all set bits in ascending bit order: decoding
0x0000 yields the empty list, decoding 0x0003 yields exactly the bit-0
reason (MEM) followed by the bit-1 reason (AFE_SAT_BIT_1) and never only the
first matching reason; in general the returned list is strictly ascending in
the underlying bitmask values and contains a reason exactly when the
corresponding bit is set. -/
theorem decode_error_flags_reports_all_set_bits :
    decode_error_flags 0x0000 = [] ∧
    decode_error_flags 0x0003
      = [ErrorFlag1Reason.MEM, ErrorFlag1Reason.AFE_SAT_BIT_1] ∧
    ∀ flags : Nat,
      List.Pairwise (fun r s => r.value < s.value) (decode_error_flags flags) ∧
      ∀ r, r ∈ decode_error_flags flags
        ↔ ∃ b, b < 16 ∧ flags.testBit b ∧ r = errorFlag1BitReason b := by
  refine ⟨by decide, by decide, fun flags => ⟨?_, fun r => ?_⟩⟩
  · rw [decode_error_flags_eq_filter, List.pairwise_map]
    have hr : List.Pairwise (· < ·) ((List.range 16).filter (flags.testBit ·)) :=
      (List.pairwise_lt_range 16).filter _
    refine hr.imp_of_mem fun ha hb hab => ?_
    have ha16 : _ < 16 := List.mem_range.mp (List.mem_of_mem_filter ha)
    have hb16 : _ < 16 := List.mem_range.mp (List.mem_of_mem_filter hb)
    exact errorFlag1BitReason_strictMono _ ha16 _ hb16 hab
  · unfold decode_error_flags
    rw [List.mem_filterMap]
    constructor
    · rintro ⟨b, hb, hsome⟩
      by_cases ht : flags.testBit b
      · refine ⟨b, List.mem_range.mp hb, ht, ?_⟩
        simp only [ht, if_true, Option.some.injEq] at hsome
        exact hsome.symm
      · simp [ht] at hsome
    · rintro ⟨b, hb16, ht, hr⟩
      refine ⟨b, List.mem_range.mpr hb16, ?_⟩
      simp [ht, hr]

/-- The part-number tag space of `ScalingFactorMap<S>` from Protocol.h: the
ten LDE-series sensor types that have partial template specializations, plus
`otherType` standing for any other type argument, for which only the primary
template (with its default static initialization `VALUE = 0.0`) exists. -/
inductive SensorPartNumberTag where
  | LDE_S025_U
  | LDE_S050_U
  | LDE_S100_U
  | LDE_S250_U
  | LDE_S500_U
  | LDE_S025_B
  | LDE_S050_B
  | LDE_S100_B
  | LDE_S250_B
  | LDE_S500_B
  | otherType
  deriving DecidableEq, Repr

/-- `ScalingFactorMap<S>::VALUE` from Protocol.h: the per-part-number
scaling factors (counts per physical unit). The C++ doubles are integral,
embedded exactly as rationals; the primary template's default is `0.0`. -/
def ScalingFactorMap : SensorPartNumberTag → ℚ
  | .LDE_S025_U => 1200
  | .LDE_S050_U => 600
  | .LDE_S100_U => 300
  | .LDE_S250_U => 120
  | .LDE_S500_U => 60
  | .LDE_S025_B => 1200
  | .LDE_S050_B => 600
  | .LDE_S100_B => 300
  | .LDE_S250_B => 120
  | .LDE_S500_B => 60
  | .otherType => 0

/-- The `IsLDESeriesSensorType` concept from Protocol.h: satisfied exactly
by the ten LDE part-number types. -/
def IsLDESeriesSensorType : SensorPartNumberTag → Bool
  | .otherType => false
  | _ => true

/-- `GetScalingFactor<T>` from Protocol.h: constrained by the
`IsLDESeriesSensorType` concept, so it can only be instantiated for the ten
supported tags — any other type argument is rejected before it could ever
read the primary template's default `0.0` — and it returns
`ScalingFactorMap<T>::VALUE`. -/
def GetScalingFactor (t : SensorPartNumberTag)
    (h : IsLDESeriesSensorType t = true) : ℚ :=
  ScalingFactorMap t

/-- Claim C9: the scaling-factor lookup yields a positive factor between 60
and 1200 counts per unit for each of the ten supported LDE part-number tags,
and every part-number tag outside this closed set fails the concept check
(so `GetScalingFactor` cannot be instantiated for it at all); in particular
the lookup never yields the default factor 0 that a later per-read division
would consume. -/
theorem scaling_factor_positive_bounded :
    (∀ t (h : IsLDESeriesSensorType t = true),
        60 ≤ GetScalingFactor t h ∧ GetScalingFactor t h ≤ 1200 ∧
        0 < GetScalingFactor t h ∧ GetScalingFactor t h ≠ 0) ∧
    (∀ t, IsLDESeriesSensorType t = false
        → t = SensorPartNumberTag.otherType ∧ ScalingFactorMap t = 0) := by
  constructor
  · intro t h
    cases t
    case otherType => simp [IsLDESeriesSensorType] at h
    all_goals refine ⟨by norm_num [GetScalingFactor, ScalingFactorMap],
      by norm_num [GetScalingFactor, ScalingFactorMap],
      by norm_num [GetScalingFactor, ScalingFactorMap],
      by norm_num [GetScalingFactor, ScalingFactorMap]⟩
  · intro t h
    cases t <;> simp_all [ScalingFactorMap, IsLDESeriesSensorType]

/-- Witness for C9: the LDE_S050_U tag passes the concept check and its
factor is 600, inside [60, 1200] and nonzero. -/
theorem scaling_factor_positive_bounded_witness :
    IsLDESeriesSensorType SensorPartNumberTag.LDE_S050_U = true ∧
    60 ≤ GetScalingFactor SensorPartNumberTag.LDE_S050_U rfl ∧
    GetScalingFactor SensorPartNumberTag.LDE_S050_U rfl ≤ 1200 ∧
    GetScalingFactor SensorPartNumberTag.LDE_S050_U rfl ≠ 0 :=
  ⟨rfl,
   (scaling_factor_positive_bounded.1 SensorPartNumberTag.LDE_S050_U rfl).1,
   (scaling_factor_positive_bounded.1 SensorPartNumberTag.LDE_S050_U rfl).2.1,
   (scaling_factor_positive_bounded.1 SensorPartNumberTag.LDE_S050_U rfl).2.2.2⟩

/-- `MemoryBank_t` from Protocol.h. -/
inductive MemoryBank where
  | BANK_0
  | BANK_1
  deriving DecidableEq, Repr

/-- `OperationMode_t` is declared in Utilities.h (absent from src/); the
constructor initializes `m_InclinometerMode` to `OperationMode_t::MODE_1`. -/
inductive OperationMode where
  | MODE_1
  | MODE_2
  | MODE_3
  | MODE_4
  deriving DecidableEq, Repr

/-- The tracked device state of `NuerteyLDESeriesDevice` that the mode, bank
and power-state transition operations manipulate. The class itself holds
`m_InclinometerMode` and `m_PoweredDownMode`; the tracked bank is the
spec's Mode/Bank Controller state (`SwitchToBank`'s body is not in src/). -/
structure DeviceTrackedState where
  m_InclinometerMode : OperationMode
  m_PoweredDownMode : Bool
  trackedBank : MemoryBank
  deriving DecidableEq, Repr

/-- Modelled from the spec: `SwitchToBank<V>`'s body is not in src/ (only
its declaration is). Per the spec it issues the bank-switch command, runs
the full encode, transfer, decode and validate cycle, and updates the
tracked bank only on a Matched (success) validation outcome. The outcome of
the exchange is passed in, since the transfer collaborator is external. -/
def SwitchToBank (st : DeviceTrackedState) (target : MemoryBank)
    (outcome : SensorStatus) : DeviceTrackedState :=
  if outcome = SensorStatus.SUCCESS then { st with trackedBank := target }
  else st

/-- `WakeupFromPowerDown` from NuerteyLDESeriesDevice.h: it assigns
`m_PoweredDownMode = false` first and only then issues
`WriteCommandOperation<WAKEUP_FROM_POWERDOWN_MODE>()`, so the cleared flag
stands no matter how the exchange validates. The write command's outcome is
passed in (its body is not in src/; per the spec a non-Matched outcome
leaves tracked state unchanged, which is how it is modelled here). -/
def WakeupFromPowerDown (st : DeviceTrackedState) (outcome : SensorStatus) :
    DeviceTrackedState × SensorStatus :=
  ({ st with m_PoweredDownMode := false }, outcome)

/-- Counterexample to Claim C6 as stated: a WakeupFromPowerDown whose
exchange fails validation with the bad-checksum error still flips the
tracked m_PoweredDownMode from true to false — the validation failure does
not leave the previously tracked state unchanged, because the source
assigns the flag before the command is even transferred. -/
theorem wakeup_updates_state_despite_validation_failure :
    (WakeupFromPowerDown
        ⟨OperationMode.MODE_1, true, MemoryBank.BANK_0⟩
        SensorStatus.ERROR_COMMUNICATION_FAILURE_BAD_CHECKSUM).1.m_PoweredDownMode
        = false ∧
    (⟨OperationMode.MODE_1, true, MemoryBank.BANK_0⟩
        : DeviceTrackedState).m_PoweredDownMode = true ∧
    SensorStatus.ERROR_COMMUNICATION_FAILURE_BAD_CHECKSUM ≠ SensorStatus.SUCCESS := by
  decide

/-- Claim C6 amended: SwitchToBank (modelled from the spec, its body being
absent from src/) updates the tracked bank only on a Matched (success)
validation outcome — any validation failure leaves the tracked bank and the
rest of the state unchanged — but WakeupFromPowerDown clears
m_PoweredDownMode unconditionally, before the exchanged frame is validated,
so for that operation a validation failure does not preserve the previously
tracked power state (the other tracked fields are untouched). -/
theorem transitions_update_policy
    (st : DeviceTrackedState) (target : MemoryBank) (outcome : SensorStatus)
    (h : outcome ≠ SensorStatus.SUCCESS) :
    SwitchToBank st target outcome = st ∧
    (WakeupFromPowerDown st outcome).1.m_PoweredDownMode = false ∧
    (WakeupFromPowerDown st outcome).1.trackedBank = st.trackedBank ∧
    (WakeupFromPowerDown st outcome).1.m_InclinometerMode = st.m_InclinometerMode := by
  refine ⟨?_, rfl, rfl, rfl⟩
  simp [SwitchToBank, h]

/-- Witness for the amended C6: with the bad-checksum outcome, a bank switch
toward BANK_1 leaves the tracked bank at BANK_0 while the wakeup still
clears the power-down flag. -/
theorem transitions_update_policy_witness :
    SensorStatus.ERROR_COMMUNICATION_FAILURE_BAD_CHECKSUM ≠ SensorStatus.SUCCESS ∧
    SwitchToBank ⟨OperationMode.MODE_1, true, MemoryBank.BANK_0⟩ MemoryBank.BANK_1
        SensorStatus.ERROR_COMMUNICATION_FAILURE_BAD_CHECKSUM
      = ⟨OperationMode.MODE_1, true, MemoryBank.BANK_0⟩ :=
  ⟨by decide,
   (transitions_update_policy ⟨OperationMode.MODE_1, true, MemoryBank.BANK_0⟩
      MemoryBank.BANK_1 SensorStatus.ERROR_COMMUNICATION_FAILURE_BAD_CHECKSUM
      (by decide)).1⟩

/-- `MINIMUM_TIME_BETWEEN_SPI_CYCLES_MICROSECS` from
NuerteyLDESeriesDevice.h ("TLH Time between SPI cycles ... 10 us"). -/
def MINIMUM_TIME_BETWEEN_SPI_CYCLES_MICROSECS : Int := 10

/-- The guard of the pre-transfer busy-wait in `FullDuplexTransfer`:
`duration_cast<MicroSecs_t>(currentTime - m_LastSPITransferTime).count()
< MINIMUM_TIME_BETWEEN_SPI_CYCLES_MICROSECS`. In the source `currentTime`
is sampled once, before the loop, and `m_LastSPITransferTime` is not
written inside the loop, so the guard depends only on the elapsed
microseconds measured at loop entry and is invariant across iterations. -/
def busyWaitGuard (elapsedMicrosecs : Int) : Bool :=
  elapsedMicrosecs < MINIMUM_TIME_BETWEEN_SPI_CYCLES_MICROSECS

/-- Fuel-bounded execution of the source's `while (elapsed < 10) {}` with
its empty body: `some ()` means the loop exited within `fuel` iterations,
`none` means it was still spinning. Since the body changes nothing, each
iteration re-evaluates the very same guard. -/
def busyWaitRun (elapsedMicrosecs : Int) : Nat → Option Unit
  | 0 => none
  | fuel + 1 =>
    if busyWaitGuard elapsedMicrosecs then busyWaitRun elapsedMicrosecs fuel
    else some ()

/-- Claim C7 fails on the code (the claim itself matches the spec's intent):
when fewer than 10 microseconds have elapsed at loop entry — here, 5 — the
busy-wait in FullDuplexTransfer never terminates, for any number of
iterations, because `currentTime` is sampled once before the loop and the
empty loop body never refreshes it; so the wait does not "terminate for
every value of the previous-transfer timestamp and of the monotonic
clock". (When 10 or more microseconds have already elapsed the loop exits
immediately, which is the only way it can exit.) -/
theorem busy_wait_never_terminates_below_interval :
    ∀ fuel : Nat, busyWaitRun 5 fuel = none := by
  intro fuel
  induction fuel with
  | zero => rfl
  | succ n ih =>
    simpa [busyWaitRun, busyWaitGuard,
      MINIMUM_TIME_BETWEEN_SPI_CYCLES_MICROSECS] using ih

/-- The driver events that can touch the function-local
`static bool startupIndication` of ValidateSPIResponseFrame: construction
of a NuerteyLDESeriesDevice (the src constructor initializes the data
members and the SPI bus, and cannot touch the function-local static), a
SoftwareReset call (src: it prints and issues
`WriteCommandOperation<SOFTWARE_RESET>()`, nothing else), and one
ValidateSPIResponseFrame call on a (command, response) pair. -/
inductive DriverEvent where
  | construct
  | softwareReset
  | validate (commandFrame responseFrame : SPICommandFrame)
  deriving DecidableEq, Repr

/-- How each event transforms the `static bool startupIndication`; the
`sensorData` slot does not influence the flag, so an arbitrary slot value 0
is threaded through the validator. -/
def stepStartupIndication (flag : Bool) : DriverEvent → Bool
  | .construct => flag
  | .softwareReset => flag
  | .validate cmd resp => (ValidateSPIResponseFrame flag 0 cmd resp).startupIndication

/-- A clean status read: a ValidateSPIResponseFrame call on the
READ_STATUS_SUMMARY command with a CRC-valid response whose return status is
normal-operation (0b01). This is the only event shape that can change the
startup flag. -/
def isCleanStatusRead : DriverEvent → Bool
  | .validate cmd resp =>
      decide (cmd = READ_STATUS_SUMMARY) &&
      decide (resp.b3 = CalculateCRC resp) &&
      decide ((Deserialize resp).returnStatusMISO
        = ReturnStatus_NORMAL_OPERATION_NO_FLAGS)
  | _ => false

/-- One event flips the flag to "confirmed" (false) exactly on a clean
status read, and otherwise passes it through. -/
theorem stepStartupIndication_eq (flag : Bool) (e : DriverEvent) :
    stepStartupIndication flag e = (flag && !isCleanStatusRead e) := by
  cases e with
  | construct => simp [stepStartupIndication, isCleanStatusRead]
  | softwareReset => simp [stepStartupIndication, isCleanStatusRead]
  | validate cmd resp =>
    show (ValidateSPIResponseFrame flag 0 cmd resp).startupIndication = _
    by_cases hcrc : resp.b3 = CalculateCRC resp
    · by_cases hrss : cmd = READ_STATUS_SUMMARY
      · by_cases hnorm : (Deserialize resp).returnStatusMISO
            = ReturnStatus_NORMAL_OPERATION_NO_FLAGS
        · subst hrss
          simp [ValidateSPIResponseFrame, ValidateCRC, isCleanStatusRead, hcrc,
            hnorm, ReturnStatus_ERROR, ReturnStatus_NORMAL_OPERATION_NO_FLAGS]
          split <;> (try split) <;> rfl
        · subst hrss
          simp [ValidateSPIResponseFrame, ValidateCRC, isCleanStatusRead, hcrc,
            hnorm]
          split <;> (try split) <;> (try split) <;> rfl
      · simp [ValidateSPIResponseFrame, ValidateCRC, isCleanStatusRead, hcrc,
          hrss]
        split <;> (try split) <;> (try split) <;> rfl
    · simp [ValidateSPIResponseFrame, ValidateCRC, isCleanStatusRead, hcrc]

/-- Counterexample to Claim C10 as stated: run a clean status read (so the
flag transitions to "confirmed") and then a software reset. The software
reset starts a new session, yet the flag — a function-local static with
program lifetime — still reads "confirmed" (false), not the claimed
"not yet confirmed" (true). -/
theorem startup_flag_survives_software_reset :
    List.foldl stepStartupIndication true
      [DriverEvent.validate READ_STATUS_SUMMARY ⟨0x19, 0x00, 0x00, 0x6A⟩,
       DriverEvent.softwareReset] = false ∧
    isCleanStatusRead
      (DriverEvent.validate READ_STATUS_SUMMARY ⟨0x19, 0x00, 0x00, 0x6A⟩)
      = true := by
  constructor
  · show stepStartupIndication
      (stepStartupIndication true
        (DriverEvent.validate READ_STATUS_SUMMARY ⟨0x19, 0x00, 0x00, 0x6A⟩))
      DriverEvent.softwareReset = false
    decide
  · decide

/-- Claim C10 amended: the startup-confirmation flag has static (program)
lifetime, not session scope. Starting from any flag value, after any
sequence of constructions, software resets and validations the flag reads
"confirmed" (false) iff it was already confirmed or some clean status read
occurred along the way: it transitions to "confirmed" at most once — on the
first CRC-valid status-summary read whose return status indicates normal
operation — never transitions back, and is NOT re-armed by device
construction or software reset. -/
theorem startup_flag_static_lifetime (flag : Bool) (events : List DriverEvent) :
    List.foldl stepStartupIndication flag events
      = (flag && !(events.any isCleanStatusRead)) := by
  induction events generalizing flag with
  | nil => simp
  | cons e es ih =>
    rw [List.foldl_cons, ih, stepStartupIndication_eq, List.any_cons]
    cases flag <;> cases h : isCleanStatusRead e <;> simp

/-- Witness for C1: READ_STATUS_SUMMARY is in the catalog and its
precomputed fourth byte 0xE5 equals the recomputed CRC. -/
theorem catalog_crc_self_consistent_witness :
    READ_STATUS_SUMMARY ∈ spiCommandFrameCatalog ∧
    CalculateCRC READ_STATUS_SUMMARY = READ_STATUS_SUMMARY.b3 :=
  ⟨by decide, catalog_crc_self_consistent READ_STATUS_SUMMARY (by decide)⟩
